import Mathlib

/-!
Verification development for the signalkutilities online-estimation core.

The JavaScript sources are shallowly embedded: each smoother class becomes a
Lean structure holding exactly the mutable fields the class mutates, and each
method becomes a state-passing function.  JS numbers are modelled as exact
rationals (`ℚ`) where the code only uses field arithmetic, and as real numbers
(`ℝ`) where it calls `Math.exp` / `Math.cos` / `Math.sin`.  The implicit
`Date.now()` clock is made explicit: every method that reads the clock takes a
`now` argument (the two reads inside one call body are the same instant).
`null` fields are modelled with `Option`.
-/

namespace SignalKUtilities

/-- JS `x || d` on an optional numeric option field: the default is substituted
when the option is absent (`undefined`) or falsy (`0`). -/
def jsOrDefault (o : Option ℚ) (d : ℚ) : ℚ :=
  match o with
  | none => d
  | some q => if q = 0 then d else q

/-- Options object accepted by `KalmanSmoother` (smoothers.js).  A `some` value
for `steadyState` models a finite number (`isFinite` fails on `undefined`). -/
structure KalmanOptions where
  processVariance : Option ℚ := none
  measurementVariance : Option ℚ := none
  steadyState : Option ℚ := none
  deriving DecidableEq, Repr

/-- Mutable state of `KalmanSmoother`: the derived `_processVariance` (Q) and
`_measurementVariance` (R), and `_estimate`/`_variance`, which the code sets
together (both `null` after `reset()`, both numbers after the first `add`), so
they are modelled as one optional pair. -/
structure KalmanState where
  processVariance : ℚ
  measurementVariance : ℚ
  est : Option (ℚ × ℚ)
  deriving DecidableEq, Repr

/-- `KalmanSmoother.reset` (smoothers.js lines 119-136), as invoked from the
constructor (no arguments, so `_estimate = _variance = null`).  A thrown
configuration error is an `Except.error`. -/
def KalmanSmoother.reset (opts : KalmanOptions) : Except String KalmanState :=
  match opts.steadyState with
  | some K =>
      if K ≤ 0 ∨ K ≥ 1 then
        Except.error "steadyState must be between 0 and 1 (exclusive)"
      else
        Except.ok { processVariance := 1
                    measurementVariance := 1 / ((K * K - K) / (K - 1))
                    est := none }
  | none =>
      Except.ok { processVariance := jsOrDefault opts.processVariance 1
                  measurementVariance := jsOrDefault opts.measurementVariance 4
                  est := none }

/-- `KalmanSmoother.add(value, measurementVariance)` (smoothers.js lines
138-153) with the per-call measurement variance passed explicitly. -/
def KalmanSmoother.add (s : KalmanState) (value measurementVariance : ℚ) : KalmanState :=
  let mv := if measurementVariance ≤ 0 then s.measurementVariance else measurementVariance
  match s.est with
  | none => { s with est := some (value, mv) }
  | some (estimate, variance) =>
      let variance1 := variance + s.processVariance
      let kalmanGain := variance1 / (variance1 + mv)
      { s with est := some (estimate + kalmanGain * (value - estimate),
                            variance1 * (1 - kalmanGain)) }

/-- `add(value)` called with one argument: the default parameter is
`this._measurementVariance`. -/
def KalmanSmoother.addD (s : KalmanState) (value : ℚ) : KalmanState :=
  KalmanSmoother.add s value s.measurementVariance

/-- C1: the first `add(value, R_t)` stores `estimate = value` and
`variance = R_t` (with the configured `R` substituted for a non-positive
`R_t`); every later `add` substitutes `R` for a non-positive `R_t`, then
predicts `variance + Q`, takes `gain = variance/(variance + R_t)`, shifts the
estimate by `gain·(value − estimate)` and scales the variance by `1 − gain`.
Concretely, `{processVariance:1, measurementVariance:4}` gives `Q=1, R=4`;
`add(10)` yields estimate 10 and variance 4, and a further `add(12)` has
predicted variance 5, gain 5/9, estimate 100/9 and variance 20/9. -/
theorem kalman_add_follows_spec :
    (∀ Q R v Rt : ℚ,
        KalmanSmoother.add ⟨Q, R, none⟩ v Rt
          = ⟨Q, R, some (v, if Rt ≤ 0 then R else Rt)⟩)
    ∧ (∀ Q R e V v Rt : ℚ,
        KalmanSmoother.add ⟨Q, R, some (e, V)⟩ v Rt
          = ⟨Q, R, some
              (e + ((V + Q) / ((V + Q) + (if Rt ≤ 0 then R else Rt))) * (v - e),
               (V + Q) * (1 - (V + Q) / ((V + Q) + (if Rt ≤ 0 then R else Rt))))⟩)
    ∧ KalmanSmoother.reset { processVariance := some 1, measurementVariance := some 4 }
        = Except.ok ⟨1, 4, none⟩
    ∧ KalmanSmoother.addD ⟨1, 4, none⟩ 10 = ⟨1, 4, some (10, 4)⟩
    ∧ (4 : ℚ) + 1 = 5
    ∧ (5 : ℚ) / (5 + 4) = 5 / 9
    ∧ KalmanSmoother.addD ⟨1, 4, some (10, 4)⟩ 12 = ⟨1, 4, some (100 / 9, 20 / 9)⟩ := by
  refine ⟨fun Q R v Rt => rfl, fun Q R e V v Rt => rfl, ?_, ?_, by norm_num, by norm_num, ?_⟩
  · rfl
  · norm_num [KalmanSmoother.addD, KalmanSmoother.add]
  · norm_num [KalmanSmoother.addD, KalmanSmoother.add]

/-- C6: a finite `steadyState` option `K` with `K ≤ 0` or `K ≥ 1` makes
`reset()` — and hence the constructor, which calls it before any `add` —
throw a configuration error; for `K` strictly inside `(0,1)` construction
succeeds with `Q = 1` and `R = 1/ratio`, `ratio = (K² − K)/(K − 1)`. -/
theorem kalman_steadyState_validation (opts : KalmanOptions) (K : ℚ)
    (hK : opts.steadyState = some K) :
    ((K ≤ 0 ∨ 1 ≤ K) →
        KalmanSmoother.reset opts
          = Except.error "steadyState must be between 0 and 1 (exclusive)")
    ∧ (0 < K → K < 1 →
        KalmanSmoother.reset opts
          = Except.ok ⟨1, 1 / ((K * K - K) / (K - 1)), none⟩) := by
  constructor
  · intro h
    simp [KalmanSmoother.reset, hK, h]
  · intro h0 h1
    have : ¬ (K ≤ 0 ∨ K ≥ 1) := by
      push_neg
      exact ⟨h0, h1⟩
    simp [KalmanSmoother.reset, hK, this]

/-- Witness for C6 at the concrete gains 2 (rejected) and 1/2 (accepted,
yielding `Q = 1`, `R = 2`). -/
theorem kalman_steadyState_validation_witness :
    KalmanSmoother.reset ⟨none, none, some 2⟩
        = Except.error "steadyState must be between 0 and 1 (exclusive)"
    ∧ KalmanSmoother.reset ⟨none, none, some (1/2)⟩
        = Except.ok ⟨1, 1 / (((1:ℚ)/2 * (1/2) - 1/2) / (1/2 - 1)), none⟩ :=
  ⟨(kalman_steadyState_validation ⟨none, none, some 2⟩ 2 rfl).1 (by norm_num),
   (kalman_steadyState_validation ⟨none, none, some (1/2)⟩ (1/2) rfl).2
      (by norm_num) (by norm_num)⟩

/-- C7 (code bug): constructing with `{processVariance: 0, measurementVariance: 4}`
does not give `Q = 0`: the fallback `this._options.processVariance || 1`
treats the explicit `0` as falsy and substitutes `Q = 1`.  With `Q = 1`, the
variance is not non-increasing: after `add(10)` and `add(12)` the variance is
20/9, and a further `add(12, 100)` raises it to 2900/929 > 20/9.  (With a
genuine `Q = 0` the update `V ↦ V·R_t/(V + R_t)` never increases `V`, as the
claim states, so the spec describes the intent and the falsy-coercion is the
slip.) -/
theorem kalman_processVariance_zero_coerced :
    KalmanSmoother.reset ⟨some 0, some 4, none⟩ = Except.ok ⟨1, 4, none⟩
    ∧ KalmanSmoother.addD (KalmanSmoother.addD ⟨1, 4, none⟩ 10) 12
        = ⟨1, 4, some (100 / 9, 20 / 9)⟩
    ∧ KalmanSmoother.add ⟨1, 4, some (100 / 9, 20 / 9)⟩ 12 100
        = ⟨1, 4, some (10348 / 929, 2900 / 929)⟩
    ∧ (20 / 9 : ℚ) < 2900 / 929 := by
  refine ⟨rfl, ?_, ?_, by norm_num⟩
  · norm_num [KalmanSmoother.addD, KalmanSmoother.add]
  · norm_num [KalmanSmoother.addD, KalmanSmoother.add]

/-- One `{value, timestamp}` entry of the moving-average window; the
timestamp is a `Date.now()` millisecond reading. -/
structure MAEntry where
  value : ℚ
  timestamp : ℚ
  deriving DecidableEq, Repr

/-- Mutable state of `MovingAverageSmoother`: `_timeSpan` (seconds),
`_window`, `_estimate` and `_variance` (both `null` after `reset()`). -/
structure MAState where
  timeSpan : ℚ
  window : List MAEntry
  estimate : Option ℚ
  variance : Option ℚ
  deriving DecidableEq, Repr

/-- `MovingAverageSmoother.reset` (smoothers.js lines 47-53). -/
def MovingAverageSmoother.reset (timeSpanOpt : Option ℚ) : MAState :=
  ⟨jsOrDefault timeSpanOpt 1, [], none, none⟩

/-- `MovingAverageSmoother.add(value)` (smoothers.js lines 55-62).  The two
`Date.now()` reads in the body are the same instant `now`; the `reduce` calls
are `foldl` with accumulator `0`. -/
def MovingAverageSmoother.add (s : MAState) (now value : ℚ) : MAState :=
  let window1 := s.window ++ [⟨value, now⟩]
  let cutoff := now - s.timeSpan * 1000
  let window2 := window1.filter fun entry => decide (cutoff ≤ entry.timestamp)
  let estimate := window2.foldl (fun sum entry => sum + entry.value) 0 / (window2.length : ℚ)
  let variance :=
    window2.foldl (fun sum entry => sum + (entry.value - estimate) ^ 2) 0 / (window2.length : ℚ)
  ⟨s.timeSpan, window2, some estimate, some variance⟩

theorem foldl_add_eq_sum (f : MAEntry → ℚ) :
    ∀ (l : List MAEntry) (a : ℚ), l.foldl (fun sum e => sum + f e) a = a + (l.map f).sum := by
  intro l
  induction l with
  | nil => intro a; simp
  | cons x xs ih =>
      intro a
      simp [List.foldl_cons, ih (a + f x)]
      ring

/-- C3: `add(value)` appends `{value, timestamp: now}`, retains exactly the
entries with `timestamp ≥ now − timeSpan·1000` (the time span is in seconds,
the clock in milliseconds), and stores the arithmetic mean and the population
variance of the retained entries; between `add` calls nothing is evicted,
since only `add` rewrites the window.  Concretely, with `timeSpan = 1` and
samples 1, 2, 3 at one instant, the estimate is 2 and the variance 2/3. -/
theorem movingAverage_add_follows_spec :
    (∀ (s : MAState) (now value : ℚ),
      MovingAverageSmoother.add s now value
        = let w2 := (s.window ++ [(⟨value, now⟩ : MAEntry)]).filter
              (fun entry => decide (now - s.timeSpan * 1000 ≤ entry.timestamp))
          let mean := (w2.map MAEntry.value).sum / (w2.length : ℚ)
          ⟨s.timeSpan, w2, some mean,
            some ((w2.map (fun e => (MAEntry.value e - mean) ^ 2)).sum / (w2.length : ℚ))⟩)
    ∧ MovingAverageSmoother.reset (some 1) = ⟨1, [], none, none⟩
    ∧ (MovingAverageSmoother.add
        (MovingAverageSmoother.add
          (MovingAverageSmoother.add (MovingAverageSmoother.reset (some 1)) 0 1) 0 2) 0 3).estimate
        = some 2
    ∧ (MovingAverageSmoother.add
        (MovingAverageSmoother.add
          (MovingAverageSmoother.add (MovingAverageSmoother.reset (some 1)) 0 1) 0 2) 0 3).variance
        = some (2 / 3) := by
  refine ⟨?_, rfl, ?_, ?_⟩
  · intro s now value
    simp [MovingAverageSmoother.add, foldl_add_eq_sum]
  · norm_num [MovingAverageSmoother.add, MovingAverageSmoother.reset, jsOrDefault,
      List.filter]
  · norm_num [MovingAverageSmoother.add, MovingAverageSmoother.reset, jsOrDefault,
      List.filter]

/-- C10: with a non-negative `timeSpan`, the entry appended by `add` survives
the eviction filter of the same call (its timestamp is `now ≥ now − timeSpan·1000`),
so the retained window is non-empty, its length is positive, and the estimate
and variance stored by `add` are `some` values, not the `null` of the
empty-window reset state. -/
theorem movingAverage_add_window_nonempty (s : MAState) (now value : ℚ)
    (h : 0 ≤ s.timeSpan) :
    (MovingAverageSmoother.add s now value).window ≠ []
    ∧ 0 < (MovingAverageSmoother.add s now value).window.length
    ∧ (MovingAverageSmoother.add s now value).estimate.isSome
    ∧ (MovingAverageSmoother.add s now value).variance.isSome := by
  have hmem : (⟨value, now⟩ : MAEntry) ∈ (MovingAverageSmoother.add s now value).window := by
    simp only [MovingAverageSmoother.add]
    refine List.mem_filter.mpr ⟨by simp, ?_⟩
    simp only [decide_eq_true_eq]
    nlinarith
  refine ⟨?_, ?_, ?_, ?_⟩
  · exact List.ne_nil_of_mem hmem
  · exact List.length_pos.mpr (List.ne_nil_of_mem hmem)
  · simp [MovingAverageSmoother.add]
  · simp [MovingAverageSmoother.add]

/-- Witness for C10 on a freshly reset smoother with the default one-second
window, sampled at instant 0 with value 5. -/
theorem movingAverage_add_window_nonempty_witness :
    (MovingAverageSmoother.add (MovingAverageSmoother.reset none) 0 5).window ≠ []
    ∧ 0 < (MovingAverageSmoother.add (MovingAverageSmoother.reset none) 0 5).window.length
    ∧ (MovingAverageSmoother.add (MovingAverageSmoother.reset none) 0 5).estimate.isSome
    ∧ (MovingAverageSmoother.add (MovingAverageSmoother.reset none) 0 5).variance.isSome :=
  movingAverage_add_window_nonempty (MovingAverageSmoother.reset none) 0 5 (by norm_num [MovingAverageSmoother.reset, jsOrDefault])

/-- JS `x || d` over the reals, for `this._tau = this._options.tau || 1`. -/
noncomputable def jsOrDefaultR (o : Option ℝ) (d : ℝ) : ℝ :=
  match o with
  | none => d
  | some q => if q = 0 then d else q

/-- The `_estimate`, `_variance` and `_lastTime` fields of
`ExponentialSmoother`, which the code always sets together (all `null` after
`reset()`, all numbers from the first `add` on). -/
structure ExpInner where
  estimate : ℝ
  variance : ℝ
  lastTime : ℝ

/-- Mutable state of `ExponentialSmoother` (smoothers.js lines 69-107). -/
structure ExpState where
  tau : ℝ
  inner : Option ExpInner

/-- `ExponentialSmoother.reset` (smoothers.js lines 77-83). -/
noncomputable def ExponentialSmoother.reset (tauOpt : Option ℝ) : ExpState :=
  ⟨jsOrDefaultR tauOpt 1, none⟩

/-- `ExponentialSmoother.add(value)` (smoothers.js lines 85-106) with the
`Date.now()` reading passed as `now` (milliseconds).  The `_variance === null`
re-check inside the body is subsumed: variance is a number whenever the
estimate is. -/
noncomputable def ExponentialSmoother.add (s : ExpState) (now value : ℝ) : ExpState :=
  match s.inner with
  | none => ⟨s.tau, some ⟨value, 0, now⟩⟩
  | some i =>
      let dt := (now - i.lastTime) / 1000
      let alpha := 1 - Real.exp (-dt / s.tau)
      let prevEstimate := i.estimate
      ⟨s.tau, some ⟨alpha * value + (1 - alpha) * prevEstimate,
                    (1 - alpha) * (i.variance + alpha * (value - prevEstimate) ^ 2),
                    now⟩⟩

/-- The `estimate` accessor of `ExponentialSmoother` (`null` before the first
sample). -/
def ExpState.estimate (s : ExpState) : Option ℝ :=
  s.inner.map ExpInner.estimate

/-- C2: the first `add` stores the value with variance 0 and records the call
time; each later `add` uses `dt = (now − lastTime)/1000` seconds and
`alpha = 1 − e^(−dt/tau)`, blends the estimate, and updates the variance from
the residual against the pre-update estimate.  Concretely with `tau = 1`,
sample 10 at 0 ms and sample 20 at 1000 ms give `alpha = 1 − e^(−1)` (about
0.6321) and estimate `20 − 10·e^(−1)` (about 16.321). -/
theorem exponential_add_follows_spec :
    (∀ (tau now value : ℝ),
      ExponentialSmoother.add ⟨tau, none⟩ now value = ⟨tau, some ⟨value, 0, now⟩⟩)
    ∧ (∀ (tau e V last now value : ℝ),
      ExponentialSmoother.add ⟨tau, some ⟨e, V, last⟩⟩ now value
        = let alpha := 1 - Real.exp (-((now - last) / 1000) / tau)
          ⟨tau, some ⟨alpha * value + (1 - alpha) * e,
                      (1 - alpha) * (V + alpha * (value - e) ^ 2), now⟩⟩)
    ∧ (ExponentialSmoother.add
          (ExponentialSmoother.add (ExponentialSmoother.reset (some 1)) 0 10) 1000 20).estimate
        = some (20 - 10 * Real.exp (-1))
    ∧ |(1 - Real.exp (-1)) - 0.6321| < 1 / 10000
    ∧ |(20 - 10 * Real.exp (-1)) - 16.321| < 1 / 1000 := by
  have hmul : Real.exp (-1) * Real.exp 1 = 1 := by
    rw [← Real.exp_add]
    norm_num
  have h1 : (2.7182818283 : ℝ) < Real.exp 1 := Real.exp_one_gt_d9
  have h2 : Real.exp 1 < 2.7182818286 := Real.exp_one_lt_d9
  have hp : (0 : ℝ) < Real.exp (-1) := Real.exp_pos (-1)
  have hlo : (0.3678794411 : ℝ) < Real.exp (-1) := by nlinarith
  have hup : Real.exp (-1) < (0.3678794412 : ℝ) := by nlinarith
  refine ⟨fun tau now value => rfl, fun tau e V last now value => rfl, ?_, ?_, ?_⟩
  · show (ExponentialSmoother.add
        (ExponentialSmoother.add ⟨jsOrDefaultR (some 1) 1, none⟩ 0 10) 1000 20).estimate
        = some (20 - 10 * Real.exp (-1))
    have htau : jsOrDefaultR (some 1) 1 = 1 := by norm_num [jsOrDefaultR]
    rw [htau]
    show some ((1 - Real.exp (-(((1000 : ℝ) - 0) / 1000) / 1)) * 20
          + (1 - (1 - Real.exp (-(((1000 : ℝ) - 0) / 1000) / 1))) * 10)
        = some (20 - 10 * Real.exp (-1))
    norm_num
    ring
  · rw [abs_lt]
    constructor <;> nlinarith
  · rw [abs_lt]
    constructor <;> nlinarith

/-- C9 (amended): the Exponential smoother short-circuits a zero-elapsed
`add` harmlessly — `alpha = 1 − e^0 = 0`, so estimate, variance and
`lastTime` are all unchanged — while the Kalman smoother takes no time input
at all (`add` never reads a clock), so an `add` with zero elapsed wall time
performs the ordinary predict/update and in general changes both the
estimate and the variance, as at state (10, 4) with `Q=1, R=4` where
`add(12)` produces (100/9, 20/9). -/
theorem zero_elapsed_add_behavior :
    (∀ (tauOpt : Option ℝ) (e V last value : ℝ),
      ExponentialSmoother.add ⟨jsOrDefaultR tauOpt 1, some ⟨e, V, last⟩⟩ last value
        = ⟨jsOrDefaultR tauOpt 1, some ⟨e, V, last⟩⟩)
    ∧ KalmanSmoother.addD ⟨1, 4, some (10, 4)⟩ 12 = ⟨1, 4, some (100 / 9, 20 / 9)⟩
    ∧ (100 / 9 : ℚ) ≠ 10
    ∧ (20 / 9 : ℚ) ≠ 4 := by
  refine ⟨?_, ?_, by norm_num, by norm_num⟩
  · intro tauOpt e V last value
    show (⟨jsOrDefaultR tauOpt 1, some ⟨_, _, last⟩⟩ : ExpState) = _
    have : (1 : ℝ) - Real.exp (-((last - last) / 1000) / jsOrDefaultR tauOpt 1) = 0 := by
      norm_num
    simp only [ExponentialSmoother.add, this]
    norm_num
  · norm_num [KalmanSmoother.addD, KalmanSmoother.add]

/-- C9 (counterexample to the claim as stated): `KalmanSmoother.add` does not
depend on elapsed time (it takes no clock reading), so an `add` whose elapsed
wall time is zero still performs the full predict/update; at state (10, 4)
with `Q=1, R=4`, `add(12)` changes the estimate to 100/9 ≠ 10 and the
variance to 20/9 ≠ 4 instead of leaving them unchanged. -/
theorem zero_elapsed_kalman_add_changes_state :
    KalmanSmoother.addD ⟨1, 4, some (10, 4)⟩ 12 = ⟨1, 4, some (100 / 9, 20 / 9)⟩
    ∧ ¬ (KalmanSmoother.addD ⟨1, 4, some (10, 4)⟩ 12 = ⟨1, 4, some (10, 4)⟩) := by
  constructor
  · norm_num [KalmanSmoother.addD, KalmanSmoother.add]
  · norm_num [KalmanSmoother.addD, KalmanSmoother.add]

/-- The mutable vector fields of class `Polar` (Polar.js).  These are the
only fields read or written by `rotate`, `add` and `substract`; the class
carries no per-channel variance state. -/
structure Polar where
  xValue : ℝ
  yValue : ℝ

/-- `Polar.rotate(angle)` (Polar.js lines 95-102). -/
noncomputable def Polar.rotate (s : Polar) (angle : ℝ) : Polar :=
  let cosAngle := Real.cos angle
  let sinAngle := Real.sin angle
  ⟨s.xValue * cosAngle - s.yValue * sinAngle,
   s.xValue * sinAngle + s.yValue * cosAngle⟩

/-- `Polar.add(polar)` (Polar.js lines 90-93); the operand is read through
its `x`/`y` getters, which return `xValue`/`yValue`. -/
def Polar.add (s p : Polar) : Polar :=
  ⟨s.xValue + p.xValue, s.yValue + p.yValue⟩

/-- `Polar.substract(polar)` (Polar.js lines 86-89). -/
def Polar.substract (s p : Polar) : Polar :=
  ⟨s.xValue - p.xValue, s.yValue - p.yValue⟩

/-- A vector together with per-channel variances, the state the spec-side
vector claims quantify over. -/
structure VectorState where
  x : ℝ
  y : ℝ
  varX : ℝ
  varY : ℝ

/-- Action of `Polar.rotate` on a vector carrying per-channel variances
alongside: the method body reads and writes only `xValue` and `yValue`, so
variance quantities held next to the vector (such as `PolarDamped.xVar`/`yVar`
or a `PolarSmoother`'s per-axis variances) are untouched by it. -/
noncomputable def rotateLifted (s : VectorState) (angle : ℝ) : VectorState :=
  let r := Polar.rotate ⟨s.x, s.y⟩ angle
  ⟨r.xValue, r.yValue, s.varX, s.varY⟩

/-- The rotation described by the spec (claim C4's words): value rotation
plus the independence-approximation variance transform.  Stated from the
spec, for comparison with the code's `rotate`. -/
noncomputable def rotateSpec (s : VectorState) (angle : ℝ) : VectorState :=
  ⟨s.x * Real.cos angle - s.y * Real.sin angle,
   s.x * Real.sin angle + s.y * Real.cos angle,
   s.varX * Real.cos angle ^ 2 + s.varY * Real.sin angle ^ 2,
   s.varX * Real.sin angle ^ 2 + s.varY * Real.cos angle ^ 2⟩

/-- Action of `Polar.add` on a vector carrying per-channel variances
alongside: the method touches only the value components. -/
def addLifted (s v : VectorState) : VectorState :=
  let r := Polar.add ⟨s.x, s.y⟩ ⟨v.x, v.y⟩
  ⟨r.xValue, r.yValue, s.varX, s.varY⟩

/-- Action of `Polar.substract` on a vector carrying per-channel variances
alongside. -/
def substractLifted (s v : VectorState) : VectorState :=
  let r := Polar.substract ⟨s.x, s.y⟩ ⟨v.x, v.y⟩
  ⟨r.xValue, r.yValue, s.varX, s.varY⟩

/-- C4 (counterexample to the claim as stated): at state
`(x,y,varX,varY) = (3,4,1,0)` and `θ = π/2`, the spec formula prescribes
`varX' = varX·cos²θ + varY·sin²θ = 0`, but the code's `rotate` performs no
variance transform, leaving `varX = 1`. -/
theorem polar_rotate_variance_counterexample :
    (rotateLifted ⟨3, 4, 1, 0⟩ (Real.pi / 2)).varX = 1
    ∧ (rotateSpec ⟨3, 4, 1, 0⟩ (Real.pi / 2)).varX = 0
    ∧ (rotateLifted ⟨3, 4, 1, 0⟩ (Real.pi / 2)).varX
        ≠ (rotateSpec ⟨3, 4, 1, 0⟩ (Real.pi / 2)).varX := by
  refine ⟨rfl, ?_, ?_⟩
  · simp [rotateSpec, Real.cos_pi_div_two, Real.sin_pi_div_two]
  · simp [rotateLifted, rotateSpec, Real.cos_pi_div_two, Real.sin_pi_div_two, Polar.rotate]

/-- C4 (amended): `rotate(θ)` sets `x' = x·cosθ − y·sinθ` and
`y' = x·sinθ + y·cosθ` — agreeing with the spec on the value components —
but performs no variance propagation: any per-channel variances held
alongside the vector are left unchanged. -/
theorem polar_rotate_values_only (s : VectorState) (angle : ℝ) :
    rotateLifted s angle
      = ⟨s.x * Real.cos angle - s.y * Real.sin angle,
         s.x * Real.sin angle + s.y * Real.cos angle, s.varX, s.varY⟩
    ∧ (rotateLifted s angle).x = (rotateSpec s angle).x
    ∧ (rotateLifted s angle).y = (rotateSpec s angle).y :=
  ⟨rfl, rfl, rfl⟩

/-- C5 (counterexample to the claim as stated): adding the operand
`(10,20,1,2)` to the state `(1,2,5,7)` leaves `varX = 5` — the code adds no
variances — where the claim prescribes `5 + 1`; and the add-then-subtract
round trip leaves `varX = 5`, not `5 + 2·1`. -/
theorem polar_add_variance_counterexample :
    (addLifted ⟨1, 2, 5, 7⟩ ⟨10, 20, 1, 2⟩).varX = 5
    ∧ (5 : ℝ) ≠ 5 + 1
    ∧ (substractLifted (addLifted ⟨1, 2, 5, 7⟩ ⟨10, 20, 1, 2⟩) ⟨10, 20, 1, 2⟩).varX = 5
    ∧ (5 : ℝ) ≠ 5 + 2 * 1 := by
  refine ⟨rfl, by norm_num, rfl, by norm_num⟩

/-- C5 (amended): `add` adds and `substract` subtracts the value components,
while neither operation touches any per-channel variance; consequently
`add(v)` followed by `substract(v)` restores the entire state exactly —
values and variances alike — rather than inflating each variance by twice
the operand's. -/
theorem polar_add_substract_values_only (s v : VectorState) :
    addLifted s v = ⟨s.x + v.x, s.y + v.y, s.varX, s.varY⟩
    ∧ substractLifted s v = ⟨s.x - v.x, s.y - v.y, s.varX, s.varY⟩
    ∧ substractLifted (addLifted s v) v = s := by
  refine ⟨rfl, rfl, ?_⟩
  obtain ⟨x, y, a, b⟩ := s
  simp [addLifted, substractLifted, Polar.add, Polar.substract]

/-- A JS value as seen by the scalar smoothers inside `MessageSmoother`: an
exact numeric, `NaN` (which also stands for the other non-finite numerics),
or `undefined`.  `typeof` reports `number` for both `num` and `nan`;
arithmetic absorbs `nan` and `undefined` into `nan`. -/
inductive JVal where
  | num (q : ℚ)
  | nan
  | undefined
  deriving DecidableEq, Repr

/-- JS addition on smoother operands. -/
def JVal.addV : JVal → JVal → JVal
  | num a, num b => num (a + b)
  | _, _ => nan

/-- JS subtraction on smoother operands. -/
def JVal.subV : JVal → JVal → JVal
  | num a, num b => num (a - b)
  | _, _ => nan

/-- JS multiplication on smoother operands. -/
def JVal.mulV : JVal → JVal → JVal
  | num a, num b => num (a * b)
  | _, _ => nan

/-- JS division on smoother operands; a zero denominator yields a non-finite
result (`±Infinity` or `NaN` in JS, both folded into `nan` here — the
embedded code only divides by sums of positive variances). -/
def JVal.divV : JVal → JVal → JVal
  | num a, num b => if b = 0 then nan else num (a / b)
  | _, _ => nan

/-- The JS comparison `x <= 0`, which is false when `x` is `NaN` or
`undefined`. -/
def JVal.le0 : JVal → Bool
  | num a => decide (a ≤ 0)
  | _ => false

/-- `typeof x === 'number'`, true for `NaN` as well. -/
def JVal.isNumberType : JVal → Bool
  | num _ => true
  | nan => true
  | undefined => false

/-- `KalmanSmoother` state over the JS value universe, for use inside the
structured estimator: once fed a non-numeric sample, `_estimate` and
`_variance` may hold `NaN`.  `Q` and `R` stay exact rationals since they are
derived from options. -/
structure KalmanJState where
  processVariance : ℚ
  measurementVariance : ℚ
  est : Option (JVal × JVal)
  deriving DecidableEq, Repr

/-- `KalmanSmoother.add` (smoothers.js lines 138-153) over JS values. -/
def KalmanJ.add (s : KalmanJState) (value mv0 : JVal) : KalmanJState :=
  let mv := if mv0.le0 then JVal.num s.measurementVariance else mv0
  match s.est with
  | none => { s with est := some (value, mv) }
  | some (estimate, variance) =>
      let variance1 := variance.addV (JVal.num s.processVariance)
      let kalmanGain := variance1.divV (variance1.addV mv)
      { s with est := some (estimate.addV (kalmanGain.mulV (value.subV estimate)),
                            variance1.mulV ((JVal.num 1).subV kalmanGain)) }

/-- One-argument `add(value)` over JS values: the variance parameter takes
its default `this._measurementVariance`. -/
def KalmanJ.addD (s : KalmanJState) (value : JVal) : KalmanJState :=
  KalmanJ.add s value (JVal.num s.measurementVariance)

/-- A handler value as consumed by `MessageSmoother`: a bare number, a keyed
record (a JS object: keys are distinct), or any other non-numeric value,
modelled as `undefined`. -/
inductive HandlerValue where
  | num (q : ℚ)
  | obj (kvs : List (String × JVal))
  | other
  deriving DecidableEq, Repr

/-- JS property read `handlerValue[key]`: `undefined` when the key is
absent. -/
def lookupJ (kvs : List (String × JVal)) (k : String) : JVal :=
  match kvs.find? (fun kv => decide (kv.1 = k)) with
  | some kv => kv.2
  | none => JVal.undefined

/-- `Object.keys(handlerValue).filter(key => typeof handlerValue[key] ===
'number')` (MessageHandler.js lines 60-62). -/
def numericKeys (kvs : List (String × JVal)) : List String :=
  (kvs.filter (fun kv => kv.2.isNumberType)).map Prod.fst

/-- Interface of a scalar smoother class as `MessageSmoother` uses one:
`fresh` is `new SmootherClass(smootherOptions)`, `addOne` the one-argument
`add(value)` call, `addTwo` the two-argument `add(value, variance)` call,
and `estimate`/`variance` the accessors (`none` is JS `null`). -/
structure SmootherImpl (S : Type) where
  fresh : S
  addOne : S → JVal → S
  addTwo : S → JVal → JVal → S
  estimate : S → Option JVal
  variance : S → Option JVal

/-- The Kalman strategy with default options (so `Q = 1`, `R = 4`) packaged
for `MessageSmoother`. -/
def kalmanJImpl : SmootherImpl KalmanJState where
  fresh := ⟨1, 4, none⟩
  addOne := fun s v => KalmanJ.addD s v
  addTwo := fun s v r => KalmanJ.add s v r
  estimate := fun s => s.est.map Prod.fst
  variance := fun s => s.est.map Prod.snd

/-- The correlated trio `(_isObject, _propertyKeys, smoother)` of
`MessageSmoother`, always written together by `reset()`: `unset` is
`smoother = null` with `_isObject = false` and `_propertyKeys = null`;
`scalarMode` is one smoother with `_isObject = false`; `keyedMode` holds
`_propertyKeys` and one smoother per key with `_isObject = true`. -/
inductive MsgShape (S : Type) where
  | unset
  | scalarMode (s : S)
  | keyedMode (keys : List String) (m : List (String × S))
  deriving DecidableEq

/-- Mutable state of `MessageSmoother` relevant to sampling: the shape trio
and the sample counter `n` (timestamp and display bookkeeping omitted). -/
structure MsgState (S : Type) where
  shape : MsgShape S
  n : ℕ
  deriving DecidableEq

/-- A freshly constructed `MessageSmoother` (`smoother = null`, `n = 0`). -/
def MessageSmoother.init {S : Type} : MsgState S := ⟨.unset, 0⟩

/-- `MessageSmoother.reset` (MessageHandler.js lines 47-70), reading the
handler's current value to pick the shape. -/
def MessageSmoother.reset {S : Type} (impl : SmootherImpl S)
    (handlerValue : HandlerValue) : MsgShape S :=
  match handlerValue with
  | .num _ => .scalarMode impl.fresh
  | .obj kvs => .keyedMode (numericKeys kvs)
      ((numericKeys kvs).map (fun k => (k, impl.fresh)))
  | .other => .unset

/-- A handler value used as the scalar-mode `add` operand: a record or other
non-number behaves as a non-numeric operand in the smoother arithmetic. -/
def HandlerValue.asJVal : HandlerValue → JVal
  | .num q => .num q
  | .obj _ => .nan
  | .other => .undefined

/-- `MessageSmoother.sample` (MessageHandler.js lines 84-105).  The
first-call `reset()` and the `!this.smoother` re-reset read the same current
handler value as the body.  The result is `none` exactly when the smoother
is still `null` at the scalar `add` call (JS raises a `TypeError` there,
possible only for a handler value that is neither number nor record). -/
def MessageSmoother.sample {S : Type} (impl : SmootherImpl S)
    (handlerValue : HandlerValue) (handlerVariance : JVal)
    (st : MsgState S) : Option (MsgState S) :=
  let sh0 := if st.n = 0 then MessageSmoother.reset impl handlerValue else st.shape
  let sh := match sh0 with
    | .unset => MessageSmoother.reset impl handlerValue
    | _ => sh0
  match sh with
  | .unset => none
  | .scalarMode s =>
      some ⟨.scalarMode (impl.addTwo s handlerValue.asJVal handlerVariance), st.n + 1⟩
  | .keyedMode keys m =>
      match handlerValue with
      | .obj kvs =>
          some ⟨.keyedMode keys
            (m.map (fun ks => (ks.1, impl.addOne ks.2 (lookupJ kvs ks.1)))), st.n + 1⟩
      | _ => some ⟨.keyedMode keys m, st.n + 1⟩

/-- Result of the `value`/`variance` getters of `MessageSmoother`. -/
inductive MsgVal where
  | undefined
  | scalarV (v : Option JVal)
  | recordV (kvs : List (String × Option JVal))
  deriving DecidableEq, Repr

/-- `this.smoother[key]` inside the getters; by construction one smoother
exists per learned key. -/
def lookupSmoother {S : Type} (m : List (String × S)) (k : String) : Option S :=
  (m.find? (fun kv => decide (kv.1 = k))).map Prod.snd

/-- The `value` getter (MessageHandler.js lines 111-120): in keyed mode a
record over `_propertyKeys` of the per-key estimates, otherwise the scalar
smoother's estimate or `undefined`. -/
def MessageSmoother.value {S : Type} (impl : SmootherImpl S) (st : MsgState S) : MsgVal :=
  match st.shape with
  | .keyedMode keys m =>
      .recordV (keys.map (fun k => (k, (lookupSmoother m k).bind impl.estimate)))
  | .scalarMode s => .scalarV (impl.estimate s)
  | .unset => .undefined

/-- The `variance` getter (MessageHandler.js lines 126-135). -/
def MessageSmoother.varianceGet {S : Type} (impl : SmootherImpl S) (st : MsgState S) : MsgVal :=
  match st.shape with
  | .keyedMode keys m =>
      .recordV (keys.map (fun k => (k, (lookupSmoother m k).bind impl.variance)))
  | .scalarMode s => .scalarV (impl.variance s)
  | .unset => .undefined

/-- Reading one field of a record returned by the getters (`none` when the
record has no such field, or the result is not a record). -/
def MsgVal.recordLookup : MsgVal → String → Option (Option JVal)
  | .recordV kvs, k => (kvs.find? (fun kv => decide (kv.1 = k))).map Prod.snd
  | _, _ => none

/-- A sequence of `sample()` calls on a freshly constructed
`MessageSmoother`, each with the handler value and variance current at that
tick. -/
def MessageSmoother.run {S : Type} (impl : SmootherImpl S)
    (inputs : List (HandlerValue × JVal)) : Option (MsgState S) :=
  inputs.foldlM (fun st p => MessageSmoother.sample impl p.1 p.2 st) MessageSmoother.init

/-- C8 (amended): the smoothed field set is learned from the first observed
record — exactly its numeric-valued keys — and is fixed by every later
`sample()`, which maps each learned key's smoother over the current record;
a key not in the learned set is ignored and absent from the `value`
accessor's record.  A learned key missing from a later record is, however,
still updated: its smoother receives the `undefined` property lookup as the
sample value (which corrupts a numeric estimate to `NaN`), rather than
receiving no update. -/
theorem messageSmoother_key_set_behavior :
    (∀ (S : Type) (impl : SmootherImpl S) (kvs : List (String × JVal)) (hvar : JVal),
      MessageSmoother.sample impl (.obj kvs) hvar MessageSmoother.init
        = some ⟨.keyedMode (numericKeys kvs)
            ((numericKeys kvs).map (fun k => (k, impl.addOne impl.fresh (lookupJ kvs k)))), 1⟩)
    ∧ (∀ (S : Type) (impl : SmootherImpl S) (keys : List String) (m : List (String × S))
        (kvs : List (String × JVal)) (hvar : JVal) (n : ℕ), n ≠ 0 →
      MessageSmoother.sample impl (.obj kvs) hvar ⟨.keyedMode keys m, n⟩
        = some ⟨.keyedMode keys
            (m.map (fun ks => (ks.1, impl.addOne ks.2 (lookupJ kvs ks.1)))), n + 1⟩)
    ∧ (∀ (S : Type) (impl : SmootherImpl S) (keys : List String) (m : List (String × S))
        (n : ℕ) (k : String), k ∉ keys →
      (MessageSmoother.value impl ⟨.keyedMode keys m, n⟩).recordLookup k = none) := by
  refine ⟨?_, ?_, ?_⟩
  · intro S impl kvs hvar
    simp [MessageSmoother.sample, MessageSmoother.init, MessageSmoother.reset,
      List.map_map]
  · intro S impl keys m kvs hvar n hn
    simp [MessageSmoother.sample, hn]
  · intro S impl keys m n k hk
    simp only [MessageSmoother.value, MsgVal.recordLookup, List.find?_map]
    have : keys.find? (fun a => decide (a = k)) = none := by
      rw [List.find?_eq_none]
      intro x hx
      simp only [decide_eq_true_eq]
      intro h
      exact hk (h ▸ hx)
    rw [show (fun kv : String × Option JVal => decide (kv.1 = k)) ∘
          (fun k0 => (k0, (lookupSmoother m k0).bind impl.estimate))
        = fun a => decide (a = k) from rfl, this]
    rfl

/-- Witness for C8's amended theorem: a second record `{a: 3}` on a learned
key set `{a, b}` keeps both keys and updates both smoothers (with the
`undefined` lookup for the missing `b`), and a key outside the learned set
is absent from the `value` record. -/
theorem messageSmoother_key_set_behavior_witness :
    MessageSmoother.sample kalmanJImpl (.obj [("a", JVal.num 3)]) JVal.undefined
        ⟨.keyedMode ["a", "b"] [("a", kalmanJImpl.fresh), ("b", kalmanJImpl.fresh)], 1⟩
      = some ⟨.keyedMode ["a", "b"]
          ([("a", kalmanJImpl.fresh), ("b", kalmanJImpl.fresh)].map
            (fun ks => (ks.1, kalmanJImpl.addOne ks.2 (lookupJ [("a", JVal.num 3)] ks.1)))), 2⟩
    ∧ (MessageSmoother.value kalmanJImpl
        ⟨.keyedMode ["a"] [("a", kalmanJImpl.fresh)], 1⟩).recordLookup "b" = none :=
  ⟨messageSmoother_key_set_behavior.2.1 KalmanJState kalmanJImpl ["a", "b"]
      [("a", kalmanJImpl.fresh), ("b", kalmanJImpl.fresh)] [("a", JVal.num 3)]
      JVal.undefined 1 (by decide),
   messageSmoother_key_set_behavior.2.2 KalmanJState kalmanJImpl ["a"]
      [("a", kalmanJImpl.fresh)] 1 "b" (by decide)⟩

/-- C8 (counterexample to the claim as stated): with the Kalman strategy,
after a first record `{a: 1, b: 2}` the field `b` reads 2; a second record
`{a: 3}`, in which `b` is missing, does not leave `b` unchanged — the
smoother is fed the `undefined` lookup and the field reads `NaN`. -/
theorem messageSmoother_missing_key_counterexample :
    MessageSmoother.sample kalmanJImpl (.obj [("a", JVal.num 1), ("b", JVal.num 2)])
        JVal.undefined MessageSmoother.init
      = some ⟨.keyedMode ["a", "b"]
          [("a", ⟨1, 4, some (JVal.num 1, JVal.num 4)⟩),
           ("b", ⟨1, 4, some (JVal.num 2, JVal.num 4)⟩)], 1⟩
    ∧ (MessageSmoother.value kalmanJImpl
        ⟨.keyedMode ["a", "b"]
          [("a", ⟨1, 4, some (JVal.num 1, JVal.num 4)⟩),
           ("b", ⟨1, 4, some (JVal.num 2, JVal.num 4)⟩)], 1⟩).recordLookup "b"
      = some (some (JVal.num 2))
    ∧ MessageSmoother.sample kalmanJImpl (.obj [("a", JVal.num 3)]) JVal.undefined
        ⟨.keyedMode ["a", "b"]
          [("a", ⟨1, 4, some (JVal.num 1, JVal.num 4)⟩),
           ("b", ⟨1, 4, some (JVal.num 2, JVal.num 4)⟩)], 1⟩
      = some ⟨.keyedMode ["a", "b"]
          [("a", KalmanJ.addD ⟨1, 4, some (JVal.num 1, JVal.num 4)⟩ (JVal.num 3)),
           ("b", KalmanJ.addD ⟨1, 4, some (JVal.num 2, JVal.num 4)⟩ JVal.undefined)], 2⟩
    ∧ KalmanJ.addD ⟨1, 4, some (JVal.num 2, JVal.num 4)⟩ JVal.undefined
      = ⟨1, 4, some (JVal.nan, JVal.num (20 / 9))⟩
    ∧ (MessageSmoother.value kalmanJImpl
        ⟨.keyedMode ["a", "b"]
          [("a", KalmanJ.addD ⟨1, 4, some (JVal.num 1, JVal.num 4)⟩ (JVal.num 3)),
           ("b", ⟨1, 4, some (JVal.nan, JVal.num (20 / 9))⟩)], 2⟩).recordLookup "b"
      = some (some JVal.nan)
    ∧ some JVal.nan ≠ some (JVal.num 2) := by
  refine ⟨rfl, rfl, rfl, ?_, rfl, by decide⟩
  norm_num [KalmanJ.addD, KalmanJ.add, JVal.addV, JVal.subV, JVal.mulV, JVal.divV,
    JVal.le0]

end SignalKUtilities
